import Mathlib

/-!
Verification of the GSModule command layer (Gainspan Serial2Wifi Arduino
library) against its natural-language specification.

The shallow embedding below models the inline methods of
src/src/GSModule/GSModule.h.  Each one-line setter of the form
writeCommandCheckOk(fmt, args...) issues exactly one command line rendered
from the printf-style format and returns the module's OK/ERROR reply; we
embed the rendered line as a pure String function (suffix _cmd) and the
stateful call as an operation on a client-side trace of issued lines.
Methods whose implementation lives in the missing GSModule.cpp are modelled
from the spec and marked as such in their doc comments.
-/

namespace GS

/-- WEP authentication modes, from the GSAuth enum (GSModule.h lines 43-47). -/
inductive GSAuth where
  | GS_AUTH_NONE
  | GS_AUTH_OPEN
  | GS_AUTH_SHARED
deriving DecidableEq

/-- Integer value of each GSAuth enumerator, as in the C source. -/
def GSAuth.val : GSAuth → Nat
  | .GS_AUTH_NONE => 0
  | .GS_AUTH_OPEN => 1
  | .GS_AUTH_SHARED => 2

/-- Security-mode bitmask values, from the GSSecurity enum (GSModule.h
lines 54-68), including the two convenience bitwise-or constants. -/
inductive GSSecurity where
  | GS_SECURITY_AUTO
  | GS_SECURITY_OPEN
  | GS_SECURITY_WEP
  | GS_SECURITY_WPA1_PSK
  | GS_SECURITY_WPA2_PSK
  | GS_SECURITY_WPA1_ENTERPRISE
  | GS_SECURITY_WPA2_ENTERPRISE
  | GS_SECURITY_WPA2_AES_TKIP
  | GS_SECURITY_WPA_PSK
  | GS_SECURITY_WPA_ENTERPRISE
deriving DecidableEq

/-- Integer value of each GSSecurity enumerator, as in the C source
(the convenience constants are the bitwise ors 4 ||| 8 and 16 ||| 32). -/
def GSSecurity.val : GSSecurity → Nat
  | .GS_SECURITY_AUTO => 0
  | .GS_SECURITY_OPEN => 1
  | .GS_SECURITY_WEP => 2
  | .GS_SECURITY_WPA1_PSK => 4
  | .GS_SECURITY_WPA2_PSK => 8
  | .GS_SECURITY_WPA1_ENTERPRISE => 16
  | .GS_SECURITY_WPA2_ENTERPRISE => 32
  | .GS_SECURITY_WPA2_AES_TKIP => 64
  | .GS_SECURITY_WPA_PSK => 4 ||| 8
  | .GS_SECURITY_WPA_ENTERPRISE => 16 ||| 32

/-- Timing parameters for the ATS command, from the GSParam enum
(GSModule.h lines 205-266). -/
inductive GSParam where
  | GS_PARAM_AUTO_CONNECT_TIMEOUT
  | GS_PARAM_AUTO_ASSOCIATE
  | GS_PARAM_TCP_CONNECT_TIMEOUT
  | GS_PARAM_ASSOCIATION_RETRY_COUNT
  | GS_PARAM_NAGLE_WAIT_TIME
  | GS_PARAM_SCAN_TIME
  | GS_PARAM_L4_RETRY_PERIOD
  | GS_PARAM_L4_RETRY_COUNT
deriving DecidableEq

/-- Integer value of each GSParam enumerator, as in the C source. -/
def GSParam.val : GSParam → Nat
  | .GS_PARAM_AUTO_CONNECT_TIMEOUT => 0
  | .GS_PARAM_AUTO_ASSOCIATE => 1
  | .GS_PARAM_TCP_CONNECT_TIMEOUT => 2
  | .GS_PARAM_ASSOCIATION_RETRY_COUNT => 3
  | .GS_PARAM_NAGLE_WAIT_TIME => 4
  | .GS_PARAM_SCAN_TIME => 5
  | .GS_PARAM_L4_RETRY_PERIOD => 6
  | .GS_PARAM_L4_RETRY_COUNT => 7

/-- Network connection manager parameters for AT+NCMAUTOCONF, from the
GSNcmParam enum (GSModule.h lines 279-329); indices 6 and 7 are absent. -/
inductive GSNcmParam where
  | GS_NCM_CPU_WAIT
  | GS_NCM_POWER_SAVE
  | GS_NCM_KNOWN_CHANNEL_SCAN_PERIOD
  | GS_NCM_SPECIFIC_CHANNEL_SCAN_PERIOD
  | GS_NCM_ALL_CHANNEL_SCAN_PERIOD
  | GS_NCM_L3_CONNECT_PERIOD
  | GS_NCM_KNOWN_CHANNEL_SCAN_RETRY_COUNT
  | GS_NCM_SPECIFIC_CHANNEL_SCAN_RETRY_COUNT
  | GS_NCM_ALL_CHANNEL_SCAN_RETRY_COUNT
  | GS_NCM_L3_CONNECT_RETRY_COUNT
deriving DecidableEq

/-- Integer value of each GSNcmParam enumerator, as in the C source. -/
def GSNcmParam.val : GSNcmParam → Nat
  | .GS_NCM_CPU_WAIT => 0
  | .GS_NCM_POWER_SAVE => 1
  | .GS_NCM_KNOWN_CHANNEL_SCAN_PERIOD => 2
  | .GS_NCM_SPECIFIC_CHANNEL_SCAN_PERIOD => 3
  | .GS_NCM_ALL_CHANNEL_SCAN_PERIOD => 4
  | .GS_NCM_L3_CONNECT_PERIOD => 5
  | .GS_NCM_KNOWN_CHANNEL_SCAN_RETRY_COUNT => 8
  | .GS_NCM_SPECIFIC_CHANNEL_SCAN_RETRY_COUNT => 9
  | .GS_NCM_ALL_CHANNEL_SCAN_RETRY_COUNT => 10
  | .GS_NCM_L3_CONNECT_RETRY_COUNT => 11

/-- Wireless network modes, from the WMode enum (GSModule.h lines 445-449). -/
inductive WMode where
  | GS_INFRASTRUCTURE
  | GS_ADHOC
  | GS_LIMITED_AP
deriving DecidableEq

/-- Integer value of each WMode enumerator, as in the C source. -/
def WMode.val : WMode → Nat
  | .GS_INFRASTRUCTURE => 0
  | .GS_ADHOC => 1
  | .GS_LIMITED_AP => 2

/-- Transport protocols, from the Protocol enum (GSModule.h lines 472-475). -/
inductive Protocol where
  | GS_UDP
  | GS_TCP
deriving DecidableEq

/-- Integer value of each Protocol enumerator, as in the C source. -/
def Protocol.val : Protocol → Nat
  | .GS_UDP => 0
  | .GS_TCP => 1

/-- NCM operation modes, from the NCMMode enum (GSModule.h lines 509-512). -/
inductive NCMMode where
  | GS_NCM_STATION
  | GS_NCM_LIMITED_AP
deriving DecidableEq

/-- Integer value of each NCMMode enumerator, as in the C source. -/
def NCMMode.val : NCMMode → Nat
  | .GS_NCM_STATION => 0
  | .GS_NCM_LIMITED_AP => 1

/-- Client-side trace of the command lines issued so far over the serial
link.  The GSModule class itself keeps no other client-side state for the
one-line setters; the log lets us state which commands an operation issues. -/
structure ClientLog where
  lines : List String
deriving DecidableEq

/-- Model of GSCore::writeCommandCheckOk for an already-rendered command
line: issue exactly the one line and return the module's OK (true) or
ERROR/timeout (false) reply. -/
def issueCommand (log : ClientLog) (line : String) (reply : Bool) :
    Bool × ClientLog :=
  (reply, ⟨log.lines ++ [line]⟩)

/-- Command lines an operation added to the log, given the log before. -/
def emitted (before after : ClientLog) : List String :=
  after.lines.drop before.lines.length

/-- Rendered line of writeCommandCheckOk("AT+WAUTH=%d", auth). -/
def setAuth_cmd (auth : GSAuth) : String := "AT+WAUTH=" ++ toString auth.val

/-- GSModule::setAuth (GSModule.h line 52). -/
def setAuth (log : ClientLog) (auth : GSAuth) (reply : Bool) :
    Bool × ClientLog :=
  issueCommand log (setAuth_cmd auth) reply

/-- Rendered line of writeCommandCheckOk("AT+WSEC=%d", sec). -/
def setSecurity_cmd (sec : GSSecurity) : String := "AT+WSEC=" ++ toString sec.val

/-- GSModule::setSecurity (GSModule.h lines 80-83). -/
def setSecurity (log : ClientLog) (sec : GSSecurity) (reply : Bool) :
    Bool × ClientLog :=
  issueCommand log (setSecurity_cmd sec) reply

/-- Rendered line of writeCommandCheckOk("AT+WWPA=\"%s\"", passphrase):
the passphrase is embedded verbatim between double quotes, unescaped. -/
def setWpaPassphrase_cmd (passphrase : String) : String :=
  "AT+WWPA=\"" ++ passphrase ++ "\""

/-- GSModule::setWpaPassphrase (GSModule.h lines 88-91). -/
def setWpaPassphrase (log : ClientLog) (passphrase : String) (reply : Bool) :
    Bool × ClientLog :=
  issueCommand log (setWpaPassphrase_cmd passphrase) reply

/-- Rendered line of writeCommandCheckOk("AT+WWEP1=%s", passphrase). -/
def setWepPassphrase_cmd (passphrase : String) : String :=
  "AT+WWEP1=" ++ passphrase

/-- GSModule::setWepPassphrase (GSModule.h lines 96-99). -/
def setWepPassphrase (log : ClientLog) (passphrase : String) (reply : Bool) :
    Bool × ClientLog :=
  issueCommand log (setWepPassphrase_cmd passphrase) reply

/-- Rendered line of writeCommandCheckOk("AT+WPAPSK=\"%s\",\"%s\"", ssid,
passphrase): ssid first, then passphrase, both embedded verbatim. -/
def setPskPassphrase_cmd (passphrase ssid : String) : String :=
  "AT+WPAPSK=\"" ++ ssid ++ "\",\"" ++ passphrase ++ "\""

/-- GSModule::setPskPassphrase (GSModule.h lines 112-115). -/
def setPskPassphrase (log : ClientLog) (passphrase ssid : String)
    (reply : Bool) : Bool × ClientLog :=
  issueCommand log (setPskPassphrase_cmd passphrase ssid) reply

/-- Rendered line of writeCommandCheckOk("AT&W%d", profile).  The C
parameter has type uint8_t, hence Fin 256. -/
def saveProfile_cmd (profile : Fin 256) : String :=
  "AT&W" ++ toString profile.val

/-- GSModule::saveProfile (GSModule.h lines 177-180): issues the command
unconditionally, with no range check on the profile number. -/
def saveProfile (log : ClientLog) (profile : Fin 256) (reply : Bool) :
    Bool × ClientLog :=
  issueCommand log (saveProfile_cmd profile) reply

/-- Rendered line of writeCommandCheckOk("ATZ%d", profile). -/
def loadProfile_cmd (profile : Fin 256) : String :=
  "ATZ" ++ toString profile.val

/-- GSModule::loadProfile (GSModule.h lines 188-191): issues the command
unconditionally, with no range check on the profile number. -/
def loadProfile (log : ClientLog) (profile : Fin 256) (reply : Bool) :
    Bool × ClientLog :=
  issueCommand log (loadProfile_cmd profile) reply

/-- Rendered line of writeCommandCheckOk("AT&Y%d", profile). -/
def setDefaultProfile_cmd (profile : Fin 256) : String :=
  "AT&Y" ++ toString profile.val

/-- GSModule::setDefaultProfile (GSModule.h lines 200-203): issues the
command unconditionally, with no range check on the profile number. -/
def setDefaultProfile (log : ClientLog) (profile : Fin 256) (reply : Bool) :
    Bool × ClientLog :=
  issueCommand log (setDefaultProfile_cmd profile) reply

/-- Rendered line of writeCommandCheckOk("ATS%d=%d", param, value).  The C
value has type uint16_t, hence Fin 65536. -/
def setParam_cmd (param : GSParam) (value : Fin 65536) : String :=
  "ATS" ++ toString param.val ++ "=" ++ toString value.val

/-- GSModule::setParam (GSModule.h lines 274-277). -/
def setParam (log : ClientLog) (param : GSParam) (value : Fin 65536)
    (reply : Bool) : Bool × ClientLog :=
  issueCommand log (setParam_cmd param value) reply

/-- Rendered line of writeCommandCheckOk("AT+NCMAUTOCONF=%d,%d", param,
value). -/
def setNcmParam_cmd (param : GSNcmParam) (value : Fin 65536) : String :=
  "AT+NCMAUTOCONF=" ++ toString param.val ++ "," ++ toString value.val

/-- GSModule::setNcmParam (GSModule.h lines 337-340). -/
def setNcmParam (log : ClientLog) (param : GSNcmParam) (value : Fin 65536)
    (reply : Bool) : Bool × ClientLog :=
  issueCommand log (setNcmParam_cmd param value) reply

/-- Rendered line of writeCommandCheckOk("AT+TCERTDEL=%s", certname). -/
def delCert_cmd (certname : String) : String := "AT+TCERTDEL=" ++ certname

/-- GSModule::delCert (GSModule.h lines 376-379). -/
def delCert (log : ClientLog) (certname : String) (reply : Bool) :
    Bool × ClientLog :=
  issueCommand log (delCert_cmd certname) reply

/-- Rendered line of writeCommandCheckOk("AT+WAUTO=%d,\"%s\",%s,%d", mode,
ssid, bssid ?: "", channel).  A NULL bssid is modelled as none; the GNU
?: operator substitutes the empty string for it, so the line is built from
bssid.getD "". -/
def setAutoAssociate_cmd (ssid : String) (bssid : Option String)
    (channel : Int) (mode : WMode) : String :=
  "AT+WAUTO=" ++ toString mode.val ++ ",\"" ++ ssid ++ "\"," ++
    bssid.getD "" ++ "," ++ toString channel

/-- GSModule::setAutoAssociate (GSModule.h lines 467-470). -/
def setAutoAssociate (log : ClientLog) (ssid : String)
    (bssid : Option String) (channel : Int) (mode : WMode) (reply : Bool) :
    Bool × ClientLog :=
  issueCommand log (setAutoAssociate_cmd ssid bssid channel mode) reply

/-- Spec-side escaping rule: backslash-escape every double quote and
backslash of the embedded string (spec section 4.1). -/
def escapeChars : List Char → List Char
  | [] => []
  | c :: rest =>
    if c = '"' ∨ c = '\\' then '\\' :: c :: escapeChars rest
    else c :: escapeChars rest

/-- Spec-side escaping rule lifted to strings. -/
def escapeString (s : String) : String := ⟨escapeChars s.data⟩

/-- Spec-side decoding of an escaped field: drop the backslash before each
escaped character. -/
def unescapeChars : List Char → List Char
  | [] => []
  | ['\\'] => []
  | '\\' :: c :: rest => c :: unescapeChars rest
  | c :: rest => c :: unescapeChars rest

/-- Spec-side decoding lifted to strings. -/
def unescapeString (s : String) : String := ⟨unescapeChars s.data⟩

/-- WPA-passphrase line as the spec demands it: the quoted field holds the
escaped passphrase (spec sections 4.1 and 8). -/
def setWpaPassphrase_specCmd (passphrase : String) : String :=
  "AT+WWPA=\"" ++ escapeString passphrase ++ "\""

/-- Modelled from the spec: cid_t, the connection identifier type of the
missing GSCore header, is a small integer handle or the invalid sentinel
(spec section 3); valid handles are modelled as Fin 16 and the sentinel as
none. -/
abbrev cid_t := Option (Fin 16)

/-- Modelled from the spec: the explicit invalid-identifier sentinel. -/
def INVALID_CID : cid_t := none

/-- Per-connection lifecycle states, from spec section 3. -/
inductive ConnState where
  | Closed
  | Opening
  | Open
  | TlsHandshaking
  | Secured
  | Closing
deriving DecidableEq

/-- Modelled from the spec: the connection table (spec section 4.2) and the
names of the certificates added so far (spec section 4.3); per section 3 a
TLS session references a certificate by name only, so only names are kept. -/
structure ConnTable where
  conns : Fin 16 → ConnState
  certs : List String

/-- Update the lifecycle state of one connection. -/
def setConn (t : ConnTable) (c : Fin 16) (st : ConnState) : ConnTable :=
  { t with conns := fun i => if i = c then st else t.conns i }

/-- Modelled from the spec: Certificate Store add (spec section 4.3); the
transfer outcome ok is the module's reply. -/
def addCert (t : ConnTable) (certname : String) (ok : Bool) :
    Bool × ConnTable :=
  if ok then (true, { t with certs := certname :: t.certs }) else (false, t)

/-- Modelled from the spec: the body of GSModule::enableTls lives in the
missing GSModule.cpp; modelled from spec section 4.4 and the header doc at
GSModule.h lines 342-363.  With an unknown certificate name the command is
rejected and nothing changes; with a known name the handshake runs, and a
handshake fault makes the module close the underlying connection, so the
state goes directly to Closed. -/
def enableTls (t : ConnTable) (c : Fin 16) (certname : String)
    (handshakeOk : Bool) : Bool × ConnTable :=
  if certname ∈ t.certs then
    if handshakeOk then (true, setConn t c .Secured)
    else (false, setConn t c .Closed)
  else (false, t)

/-- Modelled from the spec: the single disconnect command line issued for a
connection; the spec fixes only that exactly one such command is issued,
not its wire text. -/
def disconnectCmd (c : Fin 16) : String := "AT+NCLOSE=" ++ toString c.val

/-- Modelled from the spec: the body of GSModule::disconnect lives in the
missing GSModule.cpp; modelled from spec sections 4.2 and 8.  Returns the
boolean result, the table after, and the command lines issued: a no-op
returning false on the invalid sentinel or an already Closed connection,
otherwise it issues the disconnect command and transitions to Closed,
releasing the identifier for reuse. -/
def disconnect (t : ConnTable) (cid : cid_t) :
    Bool × ConnTable × List String :=
  match cid with
  | none => (false, t, [])
  | some c =>
    if t.conns c = .Closed then (false, t, [])
    else (true, setConn t c .Closed, [disconnectCmd c])

/-- Model of the Arduino IPAddress value: four octets. -/
structure IPAddress where
  o1 : Fin 256
  o2 : Fin 256
  o3 : Fin 256
  o4 : Fin 256
deriving DecidableEq

/-- Modelled from the spec: the module-side UDP send state bound by a UDP
connect (spec section 4.2) together with the datagrams transmitted so far,
one entry per discrete datagram. -/
structure UdpState where
  target : Option (IPAddress × Fin 65536)
  sent : List (List (Fin 256))
deriving DecidableEq

/-- Modelled from the spec: the body of GSModule::connectUdp lives in the
missing GSModule.cpp; modelled from spec section 4.2 and the header doc at
GSModule.h lines 420-431.  A successful connect only binds the send-target
metadata inside the module and transmits no payload; on failure the
invalid sentinel is returned and nothing changes. -/
def connectUdp (s : UdpState) (ip : IPAddress) (port localport : Fin 65536)
    (moduleReply : Option (Fin 16)) : cid_t × UdpState :=
  match moduleReply with
  | some c => (some c, { s with target := some (ip, port) })
  | none => (INVALID_CID, s)

/-- Modelled from the spec: every writeData call on a UDP cid results in a
single discrete datagram (GSModule.h line 426, spec section 4.2). -/
def writeData (s : UdpState) (payload : List (Fin 256)) : UdpState :=
  { s with sent := s.sent ++ [payload] }

/-- A sequence of writeData calls, in order. -/
def writeSeq (s : UdpState) (ws : List (List (Fin 256))) : UdpState :=
  ws.foldl writeData s

/-- Modelled from the spec: the body of GSModule::connectTcp lives in the
missing GSModule.cpp; on any failure reply or timeout it returns the
invalid sentinel (GSModule.h lines 404-410, spec section 6). -/
def connectTcp (ip : IPAddress) (port : Fin 65536)
    (moduleReply : Option (Fin 16)) : cid_t :=
  match moduleReply with
  | some c => some c
  | none => INVALID_CID

/-- Modelled from the spec: the body of GSModule::listenUdp lives in the
missing GSModule.cpp; on any failure it returns the invalid sentinel
(GSModule.h lines 412-418, spec section 6). -/
def listenUdp (port : Fin 65536) (moduleReply : Option (Fin 16)) : cid_t :=
  match moduleReply with
  | some c => some c
  | none => INVALID_CID

/-- Modelled from the spec: the body of GSModule::dnsLookup lives in the
missing GSModule.cpp; when the host is not found it returns the all-zeros
address 0.0.0.0 (GSModule.h lines 395-402, spec section 6). -/
def dnsLookup (name : String) (moduleReply : Option IPAddress) : IPAddress :=
  moduleReply.getD ⟨0, 0, 0, 0⟩

/-- Modelled from the spec: NCM retry configuration (spec sections 3 and
4.5): the per-phase retry-count bounds and the associate-only flag. -/
structure NcmConfig where
  assocRetryCount : Nat
  connRetryCount : Nat
  associateOnly : Bool
deriving DecidableEq

/-- Phases of the NCM state machine, from spec section 4.5. -/
inductive NcmPhase where
  | Associating
  | Associated
  | Connecting
  | Connected
  | AssociateOnlyIdle
deriving DecidableEq

/-- Modelled from the spec: the NCM manager state: whether it is enabled
and the attempt counters of the two retry-bounded phases. -/
structure NcmState where
  enabled : Bool
  phase : NcmPhase
  assocAttempts : Nat
  connAttempts : Nat
deriving DecidableEq

/-- Events driving the NCM machine: a tick on which the machine may make
one attempt whose outcome ok the radio reports, or a (re)association of
the radio link. -/
inductive NcmEvent where
  | tick (ok : Bool)
  | reassoc
deriving DecidableEq

/-- Modelled from the spec: the NCM state machine runs inside the module
firmware (GSModule::setNcm only starts or stops it); modelled from spec
section 4.5 and the header doc at GSModule.h lines 514-551.  Each step
returns the new state and whether an attempt was made.  An attempt in a
phase is made only while the phase's counter is below its retry bound;
reaching the bound halts attempts for that phase but never clears enabled,
and a (re)association event restarts the connection phase with a fresh
attempt budget. -/
def ncmStep (cfg : NcmConfig) (s : NcmState) (ev : NcmEvent) :
    NcmState × Bool :=
  if s.enabled then
    match ev with
    | .reassoc =>
      ({ s with
          phase := if cfg.associateOnly then .AssociateOnlyIdle else .Connecting,
          connAttempts := 0 }, false)
    | .tick ok =>
      match s.phase with
      | .Associating =>
        if s.assocAttempts < cfg.assocRetryCount then
          if ok then ({ s with phase := .Associated }, true)
          else ({ s with assocAttempts := s.assocAttempts + 1 }, true)
        else (s, false)
      | .Associated =>
        ({ s with
            phase := if cfg.associateOnly then .AssociateOnlyIdle
              else .Connecting }, false)
      | .Connecting =>
        if s.connAttempts < cfg.connRetryCount then
          if ok then ({ s with phase := .Connected }, true)
          else ({ s with connAttempts := s.connAttempts + 1 }, true)
        else (s, false)
      | _ => (s, false)
  else (s, false)

/-- Concrete table for witnesses: every connection Open, one certificate
named ca added. -/
def openTable : ConnTable := ⟨fun _ => .Open, ["ca"]⟩

/-- Concrete table for witnesses: every connection Closed, no certificate. -/
def closedTable : ConnTable := ⟨fun _ => .Closed, []⟩

end GS

namespace GS

/-- Issuing one command appends exactly that line to the client log. -/
theorem emitted_issueCommand (log : ClientLog) (line : String) (reply : Bool) :
    emitted log (issueCommand log line reply).2 = [line] := by
  simp [emitted, issueCommand, List.drop_left]

/-- Claim C1, code bug: the spec requires caller-supplied strings with a
double quote or backslash to be backslash-escaped before embedding, and the
TODO comments at GSModule.h lines 77-78 and 109-110 state the same intent,
but setWpaPassphrase embeds the raw string.  At the failing input x"y the
emitted line differs from the escaped line the claim requires; the
spec-side round trip does recover the original from the escaped field,
while the raw field the code embeds is already the original only because
no escaping happened at all. -/
theorem C1_escaping_code_bug :
    setWpaPassphrase_cmd "x\"y" = "AT+WWPA=\"x\"y\"" ∧
    setWpaPassphrase_specCmd "x\"y" = "AT+WWPA=\"x\\\"y\"" ∧
    setWpaPassphrase_cmd "x\"y" ≠ setWpaPassphrase_specCmd "x\"y" ∧
    unescapeString (escapeString "x\"y") = "x\"y" := by
  refine ⟨rfl, by decide, by decide, by decide⟩

/-- Claim C2, counterexample: saveProfile with the out-of-range profile
number 2 does issue a command (the line AT&W2), refuting the claim that it
returns false without issuing any command. -/
theorem C2_counterexample :
    ((2 : Fin 256) : Nat) ≠ 0 ∧ ((2 : Fin 256) : Nat) ≠ 1 ∧
    emitted ⟨[]⟩ (saveProfile ⟨[]⟩ 2 true).2 = ["AT&W2"] := by
  refine ⟨by decide, by decide, rfl⟩

/-- Claim C2 as amended: saveProfile, loadProfile and setDefaultProfile
perform no client-side validation of the profile number; for every profile
value each issues exactly one command embedding that number and returns
the module's reply unchanged. -/
theorem C2_profile_ops_no_validation (log : ClientLog) (profile : Fin 256)
    (reply : Bool) :
    saveProfile log profile reply =
      (reply, ⟨log.lines ++ ["AT&W" ++ toString profile.val]⟩) ∧
    loadProfile log profile reply =
      (reply, ⟨log.lines ++ ["ATZ" ++ toString profile.val]⟩) ∧
    setDefaultProfile log profile reply =
      (reply, ⟨log.lines ++ ["AT&Y" ++ toString profile.val]⟩) := by
  exact ⟨rfl, rfl, rfl⟩

/-- Claim C5: each typed operation issues exactly one command line matching
the section-6 template for it, leaves the client with no other state change
than that line and the passed-through module reply, and the enumerated
arguments carry the documented integer wire values (auth 0/1/2; security
bitmask 0,1,2,4,8,16,32,64; wireless mode 0/1/2; protocol UDP=0/TCP=1;
NCM mode 0/1). -/
theorem C5_encoder_templates_and_wire_values :
    (∀ log reply a, setAuth log a reply =
      (reply, ⟨log.lines ++ ["AT+WAUTH=" ++ toString (GSAuth.val a)]⟩)) ∧
    (∀ log reply sec, setSecurity log sec reply =
      (reply, ⟨log.lines ++ ["AT+WSEC=" ++ toString (GSSecurity.val sec)]⟩)) ∧
    (∀ log reply p, setWpaPassphrase log p reply =
      (reply, ⟨log.lines ++ ["AT+WWPA=\"" ++ p ++ "\""]⟩)) ∧
    (∀ log reply p, setWepPassphrase log p reply =
      (reply, ⟨log.lines ++ ["AT+WWEP1=" ++ p]⟩)) ∧
    (∀ log reply p ssid, setPskPassphrase log p ssid reply =
      (reply, ⟨log.lines ++ ["AT+WPAPSK=\"" ++ ssid ++ "\",\"" ++ p ++ "\""]⟩)) ∧
    (∀ log reply param value, setParam log param value reply =
      (reply, ⟨log.lines ++
        ["ATS" ++ toString (GSParam.val param) ++ "=" ++ toString value.val]⟩)) ∧
    (∀ log reply param value, setNcmParam log param value reply =
      (reply, ⟨log.lines ++ ["AT+NCMAUTOCONF=" ++ toString (GSNcmParam.val param)
        ++ "," ++ toString value.val]⟩)) ∧
    (∀ log reply name, delCert log name reply =
      (reply, ⟨log.lines ++ ["AT+TCERTDEL=" ++ name]⟩)) ∧
    (∀ log reply ssid bssid channel mode,
      setAutoAssociate log ssid bssid channel mode reply =
      (reply, ⟨log.lines ++ ["AT+WAUTO=" ++ toString (WMode.val mode) ++ ",\""
        ++ ssid ++ "\"," ++ bssid.getD "" ++ "," ++ toString channel]⟩)) ∧
    (GSAuth.val .GS_AUTH_NONE = 0 ∧ GSAuth.val .GS_AUTH_OPEN = 1 ∧
      GSAuth.val .GS_AUTH_SHARED = 2) ∧
    (GSSecurity.val .GS_SECURITY_AUTO = 0 ∧ GSSecurity.val .GS_SECURITY_OPEN = 1 ∧
      GSSecurity.val .GS_SECURITY_WEP = 2 ∧ GSSecurity.val .GS_SECURITY_WPA1_PSK = 4 ∧
      GSSecurity.val .GS_SECURITY_WPA2_PSK = 8 ∧
      GSSecurity.val .GS_SECURITY_WPA1_ENTERPRISE = 16 ∧
      GSSecurity.val .GS_SECURITY_WPA2_ENTERPRISE = 32 ∧
      GSSecurity.val .GS_SECURITY_WPA2_AES_TKIP = 64) ∧
    (WMode.val .GS_INFRASTRUCTURE = 0 ∧ WMode.val .GS_ADHOC = 1 ∧
      WMode.val .GS_LIMITED_AP = 2) ∧
    (Protocol.val .GS_UDP = 0 ∧ Protocol.val .GS_TCP = 1) ∧
    (NCMMode.val .GS_NCM_STATION = 0 ∧ NCMMode.val .GS_NCM_LIMITED_AP = 1) := by
  refine ⟨fun _ _ _ => rfl, fun _ _ _ => rfl, fun _ _ _ => rfl, fun _ _ _ => rfl,
    fun _ _ _ _ => rfl, fun _ _ _ _ => rfl, fun _ _ _ _ => rfl, fun _ _ _ => rfl,
    fun _ _ _ _ _ _ => rfl, by decide, by decide, by decide, by decide, by decide⟩

/-- Claim C9: setAutoAssociate with a NULL bssid is well defined for every
ssid, channel and mode; the bssid field of the emitted AT+WAUTO line is the
empty string, giving AT+WAUTO=(mode),"(ssid)",,(channel). -/
theorem C9_setAutoAssociate_null_bssid (ssid : String) (channel : Int)
    (mode : WMode) :
    setAutoAssociate_cmd ssid none channel mode =
      "AT+WAUTO=" ++ toString mode.val ++ ",\"" ++ ssid ++ "\",," ++
        toString channel := by
  simp [setAutoAssociate_cmd, String.append_empty, String.append_assoc]

/-- Claim C10: the configuration setters are deterministic and stateless on
the client side; whatever was issued before and whatever the module replies,
the line a setter emits is the same function of its arguments alone. -/
theorem C10_setters_stateless (log1 log2 : ClientLog) (r1 r2 : Bool)
    (a : GSAuth) (param : GSParam) (nparam : GSNcmParam)
    (value nvalue : Fin 65536) :
    emitted log1 (setAuth log1 a r1).2 = emitted log2 (setAuth log2 a r2).2 ∧
    emitted log1 (setParam log1 param value r1).2 =
      emitted log2 (setParam log2 param value r2).2 ∧
    emitted log1 (setNcmParam log1 nparam nvalue r1).2 =
      emitted log2 (setNcmParam log2 nparam nvalue r2).2 ∧
    emitted log1 (setAuth log1 a r1).2 = [setAuth_cmd a] ∧
    emitted log1 (setParam log1 param value r1).2 = [setParam_cmd param value] ∧
    emitted log1 (setNcmParam log1 nparam nvalue r1).2 =
      [setNcmParam_cmd nparam nvalue] := by
  refine ⟨?_, ?_, ?_, ?_, ?_, ?_⟩ <;>
    simp [setAuth, setParam, setNcmParam, emitted_issueCommand]

/-- Claim C3: on a cid in state Open, enableTls with a certificate name
that was never added fails and leaves the cid Open (the table is
unchanged), whereas a TLS handshake fault with a known certificate fails
and moves the cid directly to Closed, never back to Open. -/
theorem C3_enableTls_failure_states (t : ConnTable) (c : Fin 16)
    (certname : String) (hs : Bool) (hOpen : t.conns c = .Open) :
    (certname ∉ t.certs →
      enableTls t c certname hs = (false, t) ∧
      (enableTls t c certname hs).2.conns c = .Open) ∧
    (certname ∈ t.certs →
      (enableTls t c certname false).1 = false ∧
      (enableTls t c certname false).2.conns c = .Closed ∧
      (enableTls t c certname false).2.conns c ≠ .Open) := by
  constructor
  · intro hname
    constructor
    · simp [enableTls, hname]
    · simp [enableTls, hname, hOpen]
  · intro hname
    refine ⟨by simp [enableTls, hname], by simp [enableTls, hname, setConn],
      by simp [enableTls, hname, setConn]⟩

/-- Witness for C3 at a concrete table: connection 3 is Open, only the
certificate ca was ever added; enableTls with the unknown name zz leaves 3
Open, and a handshake fault with ca closes it. -/
theorem C3_enableTls_failure_states_witness :
    (enableTls openTable 3 "zz" true = (false, openTable) ∧
      (enableTls openTable 3 "zz" true).2.conns 3 = .Open) ∧
    ((enableTls openTable 3 "ca" false).1 = false ∧
      (enableTls openTable 3 "ca" false).2.conns 3 = .Closed ∧
      (enableTls openTable 3 "ca" false).2.conns 3 ≠ .Open) :=
  ⟨(C3_enableTls_failure_states openTable 3 "zz" true rfl).1 (by decide),
   (C3_enableTls_failure_states openTable 3 "ca" false rfl).2 (by decide)⟩

/-- Claim C4: disconnect on the invalid sentinel or an already Closed cid
returns false and issues no command; on an Open cid the first disconnect
succeeds, issues exactly one command and transitions the cid to Closed
(per spec section 4.2, Closed releases the identifier for reuse), and a
second disconnect of the same identifier returns false and issues
nothing. -/
theorem C4_disconnect_lifecycle (t : ConnTable) (c : Fin 16) :
    disconnect t INVALID_CID = (false, t, []) ∧
    (t.conns c = .Closed → disconnect t (some c) = (false, t, [])) ∧
    (t.conns c = .Open →
      (disconnect t (some c)).1 = true ∧
      (disconnect t (some c)).2.1.conns c = .Closed ∧
      (disconnect t (some c)).2.2 = [disconnectCmd c] ∧
      (disconnect (disconnect t (some c)).2.1 (some c)).1 = false ∧
      (disconnect (disconnect t (some c)).2.1 (some c)).2.2 = []) := by
  refine ⟨rfl, fun h => by simp [disconnect, h], fun h => ?_⟩
  refine ⟨by simp [disconnect, h], by simp [disconnect, h, setConn],
    by simp [disconnect, h], by simp [disconnect, h, setConn],
    by simp [disconnect, h, setConn]⟩

/-- Witness for C4 at concrete tables: the sentinel case on openTable, the
already-Closed case at cid 2 of closedTable, and the Open lifecycle at cid
2 of openTable. -/
theorem C4_disconnect_lifecycle_witness :
    disconnect openTable INVALID_CID = (false, openTable, []) ∧
    disconnect closedTable (some 2) = (false, closedTable, []) ∧
    ((disconnect openTable (some 2)).1 = true ∧
      (disconnect openTable (some 2)).2.1.conns 2 = .Closed ∧
      (disconnect openTable (some 2)).2.2 = [disconnectCmd 2] ∧
      (disconnect (disconnect openTable (some 2)).2.1 (some 2)).1 = false ∧
      (disconnect (disconnect openTable (some 2)).2.1 (some 2)).2.2 = []) :=
  ⟨(C4_disconnect_lifecycle openTable 2).1,
   (C4_disconnect_lifecycle closedTable 2).2.1 rfl,
   (C4_disconnect_lifecycle openTable 2).2.2 rfl⟩

/-- A sequence of writeData calls appends exactly its payloads as separate
datagrams. -/
theorem writeSeq_sent (ws : List (List (Fin 256))) :
    ∀ s : UdpState, (writeSeq s ws).sent = s.sent ++ ws := by
  induction ws with
  | nil => intro s; simp [writeSeq]
  | cons w ws ih =>
    intro s
    simpa [writeSeq, writeData] using ih (writeData s w)

/-- Claim C6: a UDP connect transmits no payload itself (the datagram list
is unchanged whatever the module replies), and a sequence of n writeData
calls on the bound state yields exactly the n payloads as n discrete
datagrams, never coalesced into fewer nor fragmented into more. -/
theorem C6_udp_connect_and_datagrams (s : UdpState) (ip : IPAddress)
    (port localport : Fin 65536) (moduleReply : Option (Fin 16))
    (ws : List (List (Fin 256))) :
    (connectUdp s ip port localport moduleReply).2.sent = s.sent ∧
    (writeSeq (connectUdp s ip port localport moduleReply).2 ws).sent =
      s.sent ++ ws ∧
    (writeSeq (connectUdp s ip port localport moduleReply).2 ws).sent.length =
      s.sent.length + ws.length := by
  have hconn : (connectUdp s ip port localport moduleReply).2.sent = s.sent := by
    cases moduleReply <;> rfl
  refine ⟨hconn, ?_, ?_⟩
  · rw [writeSeq_sent, hconn]
  · rw [writeSeq_sent, hconn, List.length_append]

/-- Claim C7: on failure, connectTcp, listenUdp and connectUdp return the
invalid sentinel, dnsLookup returns the all-zeros address, and the
configuration setters return the module's plain boolean reply and nothing
else. -/
theorem C7_failure_sentinels (ip : IPAddress) (port localport : Fin 65536)
    (hostname : String) (s : UdpState) :
    connectTcp ip port none = INVALID_CID ∧
    listenUdp port none = INVALID_CID ∧
    (connectUdp s ip port localport none).1 = INVALID_CID ∧
    dnsLookup hostname none = ⟨0, 0, 0, 0⟩ ∧
    (∀ log a reply, (setAuth log a reply).1 = reply) ∧
    (∀ log sec reply, (setSecurity log sec reply).1 = reply) ∧
    (∀ log p reply, (setWpaPassphrase log p reply).1 = reply) ∧
    (∀ log param value reply, (setParam log param value reply).1 = reply) ∧
    (∀ log param value reply, (setNcmParam log param value reply).1 = reply) :=
  ⟨rfl, rfl, rfl, rfl, fun _ _ _ => rfl, fun _ _ _ => rfl, fun _ _ _ => rfl,
   fun _ _ _ _ => rfl, fun _ _ _ _ => rfl⟩

/-- Claim C8: once a phase's attempt counter has reached its configured
retry bound, a tick makes no further attempt in that phase and changes
nothing; no step ever clears the enabled flag, so reaching the bound never
disables the manager; and on the next re-association event the connection
phase resumes with a fresh budget, so the following tick attempts again. -/
theorem C8_ncm_retry_bound (cfg : NcmConfig) (s : NcmState) (ok : Bool)
    (ev : NcmEvent) (hEn : s.enabled = true) :
    (s.phase = .Connecting → cfg.connRetryCount ≤ s.connAttempts →
      ncmStep cfg s (.tick ok) = (s, false)) ∧
    (s.phase = .Associating → cfg.assocRetryCount ≤ s.assocAttempts →
      ncmStep cfg s (.tick ok) = (s, false)) ∧
    (ncmStep cfg s ev).1.enabled = s.enabled ∧
    (cfg.associateOnly = false → 0 < cfg.connRetryCount →
      (ncmStep cfg s .reassoc).1.connAttempts = 0 ∧
      (ncmStep cfg s .reassoc).1.phase = .Connecting ∧
      (ncmStep cfg (ncmStep cfg s .reassoc).1 (.tick ok)).2 = true) := by
  refine ⟨fun hph hle => ?_, fun hph hle => ?_, ?_, fun hao hpos => ?_⟩
  · simp [ncmStep, hEn, hph, Nat.not_lt.mpr hle]
  · simp [ncmStep, hEn, hph, Nat.not_lt.mpr hle]
  · cases ev with
    | reassoc => simp [ncmStep, hEn]
    | tick ok2 =>
      cases hph : s.phase <;>
        simp [ncmStep, hEn, hph] <;> split_ifs <;> simp [hEn]
  · refine ⟨by simp [ncmStep, hEn, hao], by simp [ncmStep, hEn, hao], ?_⟩
    cases ok <;> simp [ncmStep, hEn, hao, hpos]

/-- Witness for C8 at the spec's concrete test: retry count 3 for both
phases, connection phase already at 3 failed attempts, manager enabled. -/
theorem C8_ncm_retry_bound_witness :
    (ncmStep ⟨3, 3, false⟩ ⟨true, .Connecting, 0, 3⟩ (.tick false) =
      (⟨true, .Connecting, 0, 3⟩, false)) ∧
    (ncmStep ⟨3, 3, false⟩ ⟨true, .Connecting, 0, 3⟩ (.tick false)).1.enabled =
      (true : Bool) ∧
    ((ncmStep ⟨3, 3, false⟩ ⟨true, .Connecting, 0, 3⟩ .reassoc).1.connAttempts = 0 ∧
      (ncmStep ⟨3, 3, false⟩ ⟨true, .Connecting, 0, 3⟩ .reassoc).1.phase =
        .Connecting ∧
      (ncmStep ⟨3, 3, false⟩
        (ncmStep ⟨3, 3, false⟩ ⟨true, .Connecting, 0, 3⟩ .reassoc).1
        (.tick false)).2 = true) :=
  ⟨(C8_ncm_retry_bound ⟨3, 3, false⟩ ⟨true, .Connecting, 0, 3⟩ false
      (.tick false) rfl).1 rfl (by decide),
   (C8_ncm_retry_bound ⟨3, 3, false⟩ ⟨true, .Connecting, 0, 3⟩ false
      (.tick false) rfl).2.2.1,
   (C8_ncm_retry_bound ⟨3, 3, false⟩ ⟨true, .Connecting, 0, 3⟩ false
      (.tick false) rfl).2.2.2 rfl (by decide)⟩

end GS
